import Mathlib

/-!
Shallow embedding of mdai/client.py: the export-job lifecycle manager
(ProjectDataManager), the retry decorator configuration on Client._gql, and the
downloader. Remote calls are modelled as oracles mapping the attempt number
(1-based) to either a response or a raised Python exception; each embedded
method consults the oracle exactly as many times as the source issues requests.
-/

deriving instance DecidableEq for Except

namespace Mdai

/-- Python exception values that can arise in client.py. Exceptions raised by
the transport (requests / urllib3) are the nominal classes tested by
retry_on_http_error; the rest are the built-in exceptions the module raises or
catches. -/
inductive PyError where
  | requestsHTTPError
  | requestsConnectionError
  | urllib3HTTPError
  | typeError
  | keyError
  | nameError (name : String)
  | valueError (msg : String)
  | osError (msg : String)
  | ioError (msg : String)
  | attributeError (attr : String)
  | exceptionErr (msg : String)
  deriving DecidableEq, Repr

/-- isinstance(e, requests.exceptions.HTTPError). -/
def isRequestsHTTPError : PyError → Bool
  | .requestsHTTPError => true
  | _ => false

/-- isinstance(e, requests.exceptions.ConnectionError). -/
def isRequestsConnectionError : PyError → Bool
  | .requestsConnectionError => true
  | _ => false

/-- isinstance(e, urllib3.exceptions.HTTPError). -/
def isUrllib3HTTPError : PyError → Bool
  | .urllib3HTTPError => true
  | _ => false

/-- Source lines 14-20: retry_on_http_error(exception) returns True iff the
exception is an instance of one of the whitelisted transport error classes. -/
def retry_on_http_error (e : PyError) : Bool :=
  ([isRequestsHTTPError e, isRequestsConnectionError e, isUrllib3HTTPError e]).any
    (fun b => b)

/-- The retrying library's Retrying.exponential_sleep: after the attempt
numbered previousAttemptNumber has failed, wait
min(wait_exponential_multiplier * 2 ^ previousAttemptNumber,
wait_exponential_max) milliseconds. Note the exponent is the attempt number
itself, so the first wait is 2 * multiplier. -/
def exponentialSleep (mult cap previousAttemptNumber : Nat) : Nat :=
  min (mult * 2 ^ previousAttemptNumber) cap

/-- The retrying library's Retrying.call loop, instrumented with the list of
sleeps it performs. Arguments: the retry_on_exception predicate, the wait
parameters, the operation as an oracle over 1-based attempt numbers, the
current attempt number, and the number of attempts still allowed after the
current one (stop_max_attempt_number - attempt). A success returns
immediately; a failure rejected by the predicate is re-raised at once; a
whitelisted failure sleeps and retries until the attempt budget is gone, at
which point the last observed error is re-raised (wrap_exception is False). -/
def retryingRunT (shouldRetry : PyError → Bool) (mult cap : Nat)
    (post : Nat → Except PyError α) : Nat → Nat → Except PyError α × List Nat
  | attempt, 0 => (post attempt, [])
  | attempt, r + 1 =>
    match post attempt with
    | .ok v => (.ok v, [])
    | .error e =>
      if shouldRetry e then
        let rest := retryingRunT shouldRetry mult cap post (attempt + 1) r
        (rest.1, exponentialSleep mult cap attempt :: rest.2)
      else (.error e, [])

/-- A whole retrying-wrapped call: maxAttempts attempts in total, starting at
attempt 1. -/
def retryingCallT (shouldRetry : PyError → Bool) (maxAttempts mult cap : Nat)
    (post : Nat → Except PyError α) : Except PyError α × List Nat :=
  retryingRunT shouldRetry mult cap post 1 (maxAttempts - 1)

/-- Source lines 85-90: the retry decorator configuration on Client._gql —
retry_on_exception=retry_on_http_error, wait_exponential_multiplier=100,
wait_exponential_max=1000, stop_max_attempt_number=10. This is the only
remote call in the module that carries the decorator. -/
def gqlRetryCallT (post : Nat → Except PyError α) : Except PyError α × List Nat :=
  retryingCallT retry_on_http_error 10 100 1000 post

/-- The backoff formula as the specification words it: the wait before the
k-th retry is min(100ms * 2 ^ (k - 1), 1000ms). Stated from the spec's words
only, for comparison against the schedule the retrying library actually
produces. -/
def specWaitBeforeRetry (k : Nat) : Nat :=
  min (100 * 2 ^ (k - 1)) 1000

/-- The progress-endpoint response body as the code reads it in the try block
of _check_data_export_job_progress (source lines 176-183). Either one of the
three indexing operations raises TypeError or KeyError (body not a dict, or a
key missing), or all three values are obtained. In this API, progress and
timeRemaining arrive as JSON numbers or null; null is modelled as none. -/
inductive ProgressJson where
  | malformed
  | fields (status : String) (progress : Option Int) (timeRemaining : Option Int)
  deriving DecidableEq, Repr

/-- Source lines 186-187: the expression int(x) if x else 0 — a falsy value
(None, or the number 0) yields 0, any other number is kept (int on an int is
the identity). No clamping is performed. -/
def coerceFalsy : Option Int → Int
  | none => 0
  | some n => if n = 0 then 0 else n

/-- The formatted time-remaining part of the progress line. The humanized
constructor stands for arrow.now().shift(seconds=t).humanize(only_distance=True);
the explicitText constructor carries the literal string the code builds. -/
inductive TimeFmt where
  | humanized (seconds : Int)
  | explicitText (text : String)
  deriving DecidableEq, Repr

/-- Source lines 190-197: time_remaining > 45 is humanized by arrow; otherwise
the code is explicit, formatting the string in-N-seconds itself. -/
def formatTimeRemaining (t : Int) : TimeFmt :=
  if t > 45 then .humanized t
  else .explicitText ("in " ++ toString t ++ " seconds")

/-- The progress line printed at source lines 198-205: its data components and
the end character (carriage return while progress < 100, newline at 100). -/
structure ProgressLine where
  ty : String
  pid : String
  progress : Int
  fmt : TimeFmt
  endChar : Char
  deriving DecidableEq, Repr

/-- Source lines 189-205: the progress line is printed only when
progress > 0 and progress <= 100 and time_remaining > 0. -/
def displayFor (ty pid : String) (p t : Int) : Option ProgressLine :=
  if 0 < p ∧ p ≤ 100 ∧ 0 < t then
    some { ty := ty, pid := pid, progress := p, fmt := formatTimeRemaining t,
           endChar := if p < 100 then '\r' else '\n' }
  else none

/-- What one execution of _check_data_export_job_progress does after its POST,
as a function of the response body. Each constructor records the side effects
the corresponding source branch performs. -/
inductive PollOutcome where
  /-- Status running with coerced progress < 100 (source lines 207-209): one
  threading.Timer is started, delayMs milliseconds later the next progress
  check runs; usedProgress and usedTime are the coerced values the branch
  used, display the line printed (if any). -/
  | reschedule (delayMs : Nat) (usedProgress usedTime : Int)
      (display : Option ProgressLine)
  /-- Status running with coerced progress >= 100: no timer is started, no
  acknowledgment of any kind is issued, the method just returns (line 210). -/
  | stopRunning (usedProgress usedTime : Int) (display : Option ProgressLine)
  /-- Status done (lines 211-212): _on_data_export_job_done is invoked. -/
  | ackDone
  /-- Status error (lines 213-214), or TypeError/KeyError while reading the
  body (lines 181-183): _on_data_export_job_error is invoked. -/
  | ackError
  /-- Any other status string: no branch matches, the method falls through
  with no action. -/
  | noMatch
  deriving DecidableEq, Repr

/-- Source lines 176-214: the body-dependent part of
_check_data_export_job_progress. -/
def check_data_export_job_progress_step (ty pid : String) (body : ProgressJson) :
    PollOutcome :=
  match body with
  | .malformed => .ackError
  | .fields status progress timeRemaining =>
    if status = "running" then
      let p := coerceFalsy progress
      let t := coerceFalsy timeRemaining
      let display := displayFor ty pid p t
      if p < 100 then .reschedule 1000 p t display
      else .stopRunning p t display
    else if status = "done" then .ackDone
    else if status = "error" then .ackError
    else .noMatch

/-- The used (coerced) progress value carried by a running-branch outcome. -/
def usedProgress? : PollOutcome → Option Int
  | .reschedule _ p _ _ => some p
  | .stopRunning p _ _ => some p
  | _ => none

/-- The used (coerced) timeRemaining value carried by a running-branch
outcome. -/
def usedTime? : PollOutcome → Option Int
  | .reschedule _ _ t _ => some t
  | .stopRunning _ t _ => some t
  | _ => none

/-- The display line carried by a running-branch outcome. -/
def displayOf : PollOutcome → Option ProgressLine
  | .reschedule _ _ _ d => d
  | .stopRunning _ _ d => d
  | _ => none

/-- Source lines 169-214 as a whole: _check_data_export_job_progress performs
a single session.post (no retry decorator) and then branches on the body. An
exception raised by the post, or by r.json() outside the caught classes,
propagates. -/
def check_data_export_job_progress (ty pid : String)
    (post : Nat → Except PyError ProgressJson) : Except PyError PollOutcome :=
  match post 1 with
  | .error e => .error e
  | .ok body => .ok (check_data_export_job_progress_step ty pid body)

/-- The done-endpoint response body as _on_data_export_job_done reads it
(source line 221): r.json()["fileKey"] either raises TypeError or KeyError
(body not a dict, or no fileKey key) — the malformed case — or yields the
value, a string or null. -/
inductive DoneJson where
  | malformed
  | fileKey (v : Option String)
  deriving DecidableEq, Repr

/-- What one execution of _on_data_export_job_done does after its POST. -/
inductive DoneOutcome where
  /-- Truthy fileKey (lines 222-225): a threading.Thread running
  _download_file(file_key) is started; the polling thread is not blocked. -/
  | startDownload (fileKey : String)
  /-- The fileKey key is present but its value is falsy (null or the empty
  string): the if-body is skipped and the except clause is not entered, so
  the method returns with no download and no error handling at all. -/
  | noAction
  /-- TypeError/KeyError caught (lines 226-227): the handler invocation
  self._on_data_export_job_error(type, project_id) is evaluated, but
  project_id is not a name in scope there (and the method accepts no
  arguments), so evaluating the arguments raises NameError instead: no
  error-acknowledgment request is ever made on this path. -/
  | raisesNameError (name : String)
  deriving DecidableEq, Repr

/-- Source lines 220-227: the body-dependent part of
_on_data_export_job_done. -/
def on_data_export_job_done_step (body : DoneJson) : DoneOutcome :=
  match body with
  | .malformed => .raisesNameError ("project_id")
  | .fileKey v =>
    match v with
    | some s => if s ≠ "" then .startDownload s else .noAction
    | none => .noAction

/-- Source lines 216-227 as a whole: a single session.post (no retry
decorator), then the branching on the body. -/
def on_data_export_job_done (post : Nat → Except PyError DoneJson) :
    Except PyError DoneOutcome :=
  match post 1 with
  | .error e => .error e
  | .ok body => .ok (on_data_export_job_done_step body)

/-- Source lines 229-233: _on_data_export_job_error performs a single
session.post to the error endpoint — its response r is never inspected — and
then unconditionally raises Exception naming the export kind and project. If
the post itself raises, that exception propagates instead and the domain
error is never reached. The returned value is the exception the method
raises. -/
def on_data_export_job_error (ty pid : String)
    (post : Nat → Except PyError Nat) : PyError :=
  match post 1 with
  | .error e => e
  | .ok _ =>
    .exceptionErr ("Error exporting " ++ ty ++ " for project " ++ pid ++ ".")

/-- What one execution of create_data_export_job does. -/
inductive CreateOutcome where
  /-- Status code 202 (lines 149-150): _check_data_export_job_progress is
  invoked. -/
  | proceedToProgress
  /-- Any other status code (lines 151-152): _on_data_export_job_error is
  invoked. -/
  | toErrorPath
  /-- The session.post raised: there is no retry wrapper and no handler on
  this method, so the exception propagates from the single attempt. -/
  | raised (e : PyError)
  deriving DecidableEq, Repr

/-- Source lines 142-152: create_data_export_job performs a single
session.post (no retry decorator) and branches on the status code. The
oracle maps the attempt number to the response status code or a raised
exception. -/
def create_data_export_job (post : Nat → Except PyError Nat) : CreateOutcome :=
  match post 1 with
  | .error e => .raised e
  | .ok code => if code = 202 then .proceedToProgress else .toErrorPath

/-- Whether a string starts with the posix path separator. -/
def startsWithSep (s : String) : Bool :=
  match s.toList with
  | [] => false
  | c :: _ => c = '/'

/-- Whether a string ends with the posix path separator. -/
def endsWithSep (s : String) : Bool :=
  match s.toList.getLast? with
  | some c => c = '/'
  | none => false

/-- os.path.join for two posix path components, as the code uses it at source
line 239: an absolute second component replaces the first; otherwise the
separator is inserted unless the first component is empty or already ends
with it. -/
def osPathJoin (a b : String) : String :=
  if startsWithSep b then b
  else if a = "" ∨ endsWithSep a then a ++ b
  else a ++ "/" ++ b

/-- Index of the last occurrence of a character in a list, if any. -/
def lastIndexOf (l : List Char) (c : Char) : Option Nat :=
  (l.enum.filterMap (fun p => if p.2 = c then some p.1 else none)).getLast?

/-- The first component of os.path.splitext (posixpath): split at the last
dot that comes after the last path separator, except that dots leading the
base name do not count as extension separators (so a name that is all leading
dots up to that last dot is not split). Used at source line 270. -/
def splitextRoot (p : String) : String :=
  let cs := p.toList
  let sepIndex : Int := match lastIndexOf cs '/' with
    | some i => (i : Int)
    | none => -1
  let dotIndex : Int := match lastIndexOf cs '.' with
    | some i => (i : Int)
    | none => -1
  if sepIndex < dotIndex then
    let filenameStart := (sepIndex + 1).toNat
    let dotN := dotIndex.toNat
    if (List.range' filenameStart (dotN - filenameStart)).any
        (fun j => cs.getD j '.' ≠ '.') then
      String.mk (cs.take dotN)
    else p
  else p

/-- The outcome of a completed _download_file run: the manager's data_path
field (initialised to None at line 138) and, when a zip archive was
extracted, the directory it was extracted into. -/
structure DownloadResult where
  dataPath : Option String
  extractedInto : Option String
  deriving DecidableEq, Repr

/-- Source lines 235-272: _download_file. Inputs: the manager's type and
path, the file key, the content-length header (none when absent — the code
defaults it to 0), and the sizes of the streamed chunks. total_size is
int(r.headers.get(content-length, 0)); wrote accumulates len(data) over the
chunks. If total_size != 0 and wrote != total_size, IOError is raised. For
type images the archive is extracted into self.path and data_path is the
file path with its extension split off; for type annotations data_path is
the file path itself; extraction is modelled as succeeding. -/
def download_file (ty path file_key : String) (contentLength : Option Nat)
    (chunks : List Nat) : Except PyError DownloadResult :=
  let filepath := osPathJoin path file_key
  let total_size := contentLength.getD 0
  let wrote := chunks.sum
  if total_size ≠ 0 ∧ wrote ≠ total_size then
    .error (.ioError ("Error downloading file " ++ file_key ++ "."))
  else if ty = "images" then
    .ok { dataPath := some (splitextRoot filepath), extractedInto := some path }
  else if ty = "annotations" then
    .ok { dataPath := some filepath, extractedInto := none }
  else
    .ok { dataPath := none, extractedInto := none }

/-- The fields ProjectDataManager.__init__ stores on success (source lines
127-135). -/
structure ManagerConfig where
  ty : String
  domain : String
  project_id : String
  path : String
  deriving DecidableEq, Repr

/-- Python truthiness of an optional string argument (None or the empty
string are falsy). -/
def pyTruthyStr : Option String → Bool
  | none => false
  | some s => s ≠ ""

/-- Source lines 115-135: ProjectDataManager.__init__. The validations run in
source order, synchronously, before any network activity. The path check at
lines 124-125 is raise OSError with a message built by the non-existent
string method foramt (a typo for format), so evaluating the message raises
AttributeError and the OSError is never constructed. pathExists models
os.path.exists(path). Messages are embedded without their inner quote
characters. -/
def managerInit (ty : String) (domain project_id : Option String)
    (path : String) (pathExists : Bool) : Except PyError ManagerConfig :=
  if ty ≠ "images" ∧ ty ≠ "annotations" then
    .error (.valueError ("type must be images or annotations."))
  else if ¬ pyTruthyStr domain then
    .error (.valueError ("domain is not specified."))
  else if ¬ pyTruthyStr project_id then
    .error (.valueError ("project_id is not specified."))
  else if ¬ pathExists then
    .error (.attributeError ("foramt"))
  else
    .ok { ty := ty, domain := domain.getD "", project_id := project_id.getD "",
          path := path }

/-- The list of r consecutive naturals starting at a. -/
def natsFrom : Nat → Nat → List Nat
  | _, 0 => []
  | a, r + 1 => a :: natsFrom (a + 1) r

/-- An oracle whose every attempt raises requests.exceptions.ConnectionError. -/
def permafailConn : Nat → Except PyError Nat :=
  fun _ => .error .requestsConnectionError

/-- An oracle raising a whitelisted transient error on the first attempt and
answering 202 from the second attempt on. -/
def flakyOnce : Nat → Except PyError Nat :=
  fun k => if k = 1 then .error .requestsConnectionError else .ok 202

/-- Progress-endpoint oracle raising a whitelisted transient error on the
first attempt and answering a well-formed done body afterwards. -/
def flakyOnceProgress : Nat → Except PyError ProgressJson :=
  fun k =>
    if k = 1 then .error .requestsConnectionError
    else .ok (.fields ("done") none none)

/-- Done-endpoint oracle raising a whitelisted transient error on the first
attempt and answering a body with a file key afterwards. -/
def flakyOnceDone : Nat → Except PyError DoneJson :=
  fun k =>
    if k = 1 then .error .requestsConnectionError
    else .ok (.fileKey (some ("imgs.zip")))

/-- An oracle whose every attempt raises TypeError (not whitelisted). -/
def alwaysTypeError : Nat → Except PyError Nat := fun _ => .error .typeError

/-- Progress-endpoint oracle whose every attempt raises TypeError. -/
def alwaysTypeErrorP : Nat → Except PyError ProgressJson :=
  fun _ => .error .typeError

/-- Done-endpoint oracle whose every attempt raises TypeError. -/
def alwaysTypeErrorD : Nat → Except PyError DoneJson :=
  fun _ => .error .typeError

/-- A successful attempt returns immediately, whatever the remaining budget. -/
theorem retryingRunT_ok {α : Type} (sr : PyError → Bool) (mult cap : Nat)
    {post : Nat → Except PyError α} {a : Nat} {v : α} (r : Nat)
    (h : post a = .ok v) :
    retryingRunT sr mult cap post a r = (.ok v, []) := by
  cases r <;> simp [retryingRunT, h]

/-- A failure the predicate rejects is re-raised at once, with no sleep. -/
theorem retryingRunT_fail_stop {α : Type} (sr : PyError → Bool) (mult cap : Nat)
    {post : Nat → Except PyError α} {a : Nat} {e : PyError} (r : Nat)
    (h : post a = .error e) (hr : sr e = false) :
    retryingRunT sr mult cap post a r = (.error e, []) := by
  cases r <;> simp [retryingRunT, h, hr]

/-- A whitelisted failure with budget left sleeps and moves to the next
attempt. -/
theorem retryingRunT_fail_step {α : Type} (sr : PyError → Bool) (mult cap : Nat)
    {post : Nat → Except PyError α} {a : Nat} {e : PyError} (r : Nat)
    (h : post a = .error e) (hr : sr e = true) :
    retryingRunT sr mult cap post a (r + 1) =
      ((retryingRunT sr mult cap post (a + 1) r).1,
        exponentialSleep mult cap a :: (retryingRunT sr mult cap post (a + 1) r).2) := by
  simp [retryingRunT, h, hr]

/-- When every attempt in the window fails with a whitelisted error, the run
performs every sleep of the schedule and re-raises the error of the last
attempt. -/
theorem retryingRunT_all_fail {α : Type} (sr : PyError → Bool) (mult cap : Nat)
    (post : Nat → Except PyError α) (err : Nat → PyError) (a r : Nat)
    (h : ∀ k, a ≤ k → k ≤ a + r → post k = .error (err k) ∧ sr (err k) = true) :
    retryingRunT sr mult cap post a r =
      (.error (err (a + r)), (natsFrom a r).map (exponentialSleep mult cap)) := by
  induction r generalizing a with
  | zero =>
    simp [retryingRunT, natsFrom, (h a le_rfl (by omega)).1]
  | succ r ih =>
    have ha := h a le_rfl (by omega)
    rw [retryingRunT_fail_step sr mult cap r ha.1 ha.2,
        ih (a + 1) (fun k hk1 hk2 => h k (by omega) (by omega))]
    have hshift : a + 1 + r = a + (r + 1) := by omega
    simp [natsFrom, hshift]

/-- C2: the retry policy configured on Client._gql retries only on the three
whitelisted transport errors, a non-whitelisted error propagates from the
first call with no retry, and after 10 attempts the last observed error is
raised; but the wait before the k-th retry is min(100ms * 2 ^ k, 1000ms) —
the retrying library exponentiates by the number of attempts already made —
so the schedule is 200, 400, 800, then 1000ms capped, not the claimed
min(100ms * 2 ^ (k - 1), 1000ms) starting at 100ms. -/
theorem C2_amended_retry_policy :
    (∀ e : PyError, retry_on_http_error e = true ↔
      (e = .requestsHTTPError ∨ e = .requestsConnectionError ∨
        e = .urllib3HTTPError)) ∧
    (∀ (e : PyError) (post : Nat → Except PyError Nat),
      retry_on_http_error e = false → post 1 = .error e →
      gqlRetryCallT post = (.error e, [])) ∧
    (∀ (err : Nat → PyError) (post : Nat → Except PyError Nat),
      (∀ k, 1 ≤ k → k ≤ 10 → post k = .error (err k)) →
      (∀ k, retry_on_http_error (err k) = true) →
      gqlRetryCallT post =
        (.error (err 10),
          [200, 400, 800, 1000, 1000, 1000, 1000, 1000, 1000])) := by
  refine ⟨?_, ?_, ?_⟩
  · intro e
    cases e <;>
      simp [retry_on_http_error, isRequestsHTTPError, isRequestsConnectionError,
        isUrllib3HTTPError]
  · intro e post hne h1
    unfold gqlRetryCallT retryingCallT
    exact retryingRunT_fail_stop retry_on_http_error 100 1000 (10 - 1) h1 hne
  · intro err post hall hw
    unfold gqlRetryCallT retryingCallT
    rw [retryingRunT_all_fail retry_on_http_error 100 1000 post err 1 (10 - 1)
      (fun k hk1 hk2 => ⟨hall k hk1 (by omega), hw k⟩)]
    rw [show (1 + (10 - 1) : Nat) = 10 from by norm_num]
    rw [show (natsFrom 1 (10 - 1)).map (exponentialSleep 100 1000) =
      [200, 400, 800, 1000, 1000, 1000, 1000, 1000, 1000] from by decide]

/-- C2 witness: the amended theorem evaluated at a concrete non-whitelisted
permanent failure (TypeError, no retry) and at a concrete whitelisted
permanent failure (ConnectionError, full 10-attempt schedule). -/
theorem C2_amended_witness :
    gqlRetryCallT alwaysTypeError = (.error .typeError, []) ∧
    gqlRetryCallT permafailConn =
      (.error .requestsConnectionError,
        [200, 400, 800, 1000, 1000, 1000, 1000, 1000, 1000]) :=
  ⟨C2_amended_retry_policy.2.1 .typeError alwaysTypeError (by decide) (by decide),
   C2_amended_retry_policy.2.2 (fun _ => .requestsConnectionError) permafailConn
     (fun k _ _ => rfl) (fun _ => rfl)⟩

/-- C2 counterexample: the claim says the wait before the first retry is
min(100 * 2 ^ 0, 1000) = 100ms; the configured retrying loop actually sleeps
200ms before its first retry. -/
theorem C2_counterexample :
    (gqlRetryCallT permafailConn).2.head? = some 200 ∧
    specWaitBeforeRetry 1 = 100 ∧
    (gqlRetryCallT permafailConn).2.head? ≠ some (specWaitBeforeRetry 1) := by
  decide

/-- C1 counterexample: the manager's job-creation call, when it fails with the
whitelisted transient requests ConnectionError on its first attempt, surfaces
that failure unretried — even though an oracle that recovers on its second
attempt would succeed under the RetryPolicy that wraps Client._gql. The
progress-check, done-acknowledgment and error-acknowledgment calls surface
the same first-attempt failure equally unretried. So job-control calls are
not executed through the RetryPolicy. -/
theorem C1_counterexample :
    create_data_export_job flakyOnce = .raised .requestsConnectionError ∧
    retry_on_http_error .requestsConnectionError = true ∧
    (gqlRetryCallT flakyOnce).1 = .ok 202 ∧
    check_data_export_job_progress ("images") ("abc123") flakyOnceProgress =
      .error .requestsConnectionError ∧
    on_data_export_job_done flakyOnceDone = .error .requestsConnectionError ∧
    on_data_export_job_error ("images") ("abc123") flakyOnce =
      .requestsConnectionError := by
  decide

/-- C1 (amended): none of the manager's job-control calls — job creation,
progress check, done acknowledgment, error acknowledgment — is wrapped by the
RetryPolicy: any error raised on the single attempt, whitelisted or not,
surfaces immediately without a second attempt being consulted. Only
Client._gql is wrapped: under the gql retry configuration a whitelisted
first-attempt failure is retried and a second-attempt success is returned. -/
theorem C1_amended_no_retry_wrapping (ty pid : String) (e e2 : PyError) (v : Nat)
    (post postG : Nat → Except PyError Nat)
    (postP : Nat → Except PyError ProgressJson)
    (postD : Nat → Except PyError DoneJson)
    (h : post 1 = .error e) (hp : postP 1 = .error e) (hd : postD 1 = .error e)
    (hg1 : postG 1 = .error e2) (hg2 : postG 2 = .ok v)
    (hw : retry_on_http_error e2 = true) :
    create_data_export_job post = .raised e ∧
    check_data_export_job_progress ty pid postP = .error e ∧
    on_data_export_job_done postD = .error e ∧
    on_data_export_job_error ty pid post = e ∧
    (gqlRetryCallT postG).1 = .ok v := by
  refine ⟨?_, ?_, ?_, ?_, ?_⟩
  · simp [create_data_export_job, h]
  · simp [check_data_export_job_progress, hp]
  · simp [on_data_export_job_done, hd]
  · simp [on_data_export_job_error, h]
  · unfold gqlRetryCallT retryingCallT
    rw [show (10 - 1 : Nat) = 8 + 1 from rfl,
        retryingRunT_fail_step retry_on_http_error 100 1000 8 hg1 hw,
        retryingRunT_ok retry_on_http_error 100 1000 8 hg2]

/-- C1 witness: the amended theorem at concrete oracles — every manager call
given an oracle that always raises TypeError surfaces it from the single
attempt, while the gql-wrapped oracle that fails once with ConnectionError
and then answers 202 succeeds. -/
theorem C1_amended_witness :
    create_data_export_job alwaysTypeError = .raised .typeError ∧
    check_data_export_job_progress ("images") ("abc123") alwaysTypeErrorP =
      .error .typeError ∧
    on_data_export_job_done alwaysTypeErrorD = .error .typeError ∧
    on_data_export_job_error ("images") ("abc123") alwaysTypeError =
      .typeError ∧
    (gqlRetryCallT flakyOnce).1 = .ok 202 :=
  C1_amended_no_retry_wrapping ("images") ("abc123") .typeError
    .requestsConnectionError 202 alwaysTypeError flakyOnce alwaysTypeErrorP
    alwaysTypeErrorD rfl rfl rfl (by decide) (by decide) (by decide)

/-- The int-if-truthy-else-0 coercion is the identity on numbers that are
present: 0 is mapped to 0 through the falsy branch, every other value is kept
unchanged — in particular values above 100 and below 0 pass through. -/
theorem coerceFalsy_some (n : Int) : coerceFalsy (some n) = n := by
  by_cases h : n = 0 <;> simp [coerceFalsy, h]

/-- C3 counterexample: a running-status response reporting progress 100
schedules no further poll, but it also does not transition to Completing —
the branch simply returns, and the done acknowledgment is never issued
(ackDone only follows a response whose status is done). -/
theorem C3_counterexample :
    check_data_export_job_progress_step ("images") ("abc123")
      (.fields ("running") (some 100) (some 0)) = .stopRunning 100 0 none ∧
    check_data_export_job_progress_step ("images") ("abc123")
      (.fields ("running") (some 100) (some 0)) ≠ .ackDone := by
  decide

/-- C3 (amended): on a running-status response, if the coerced progress is
below 100 exactly one further progress check is scheduled on a 1.0-second
threading.Timer; if it is 100 or more, no further poll is scheduled and no
done acknowledgment is issued — the done acknowledgment is issued only when a
response reports status done. -/
theorem C3_amended_poll_scheduling (ty pid : String) (pv tv : Option Int) :
    (coerceFalsy pv < 100 →
      check_data_export_job_progress_step ty pid (.fields ("running") pv tv) =
        .reschedule 1000 (coerceFalsy pv) (coerceFalsy tv)
          (displayFor ty pid (coerceFalsy pv) (coerceFalsy tv))) ∧
    (100 ≤ coerceFalsy pv →
      check_data_export_job_progress_step ty pid (.fields ("running") pv tv) =
        .stopRunning (coerceFalsy pv) (coerceFalsy tv)
          (displayFor ty pid (coerceFalsy pv) (coerceFalsy tv))) ∧
    check_data_export_job_progress_step ty pid (.fields ("done") pv tv) =
      .ackDone := by
  refine ⟨?_, ?_, ?_⟩
  · intro h
    simp [check_data_export_job_progress_step, h]
  · intro h
    simp [check_data_export_job_progress_step, not_lt.mpr h]
  · simp [check_data_export_job_progress_step]

/-- C3 witness: the amended theorem at progress 50 (one timer scheduled) and
at progress 100 (no timer, no acknowledgment). -/
theorem C3_amended_witness :
    check_data_export_job_progress_step ("images") ("abc123")
      (.fields ("running") (some 50) (some 10)) =
      .reschedule 1000 50 10
        (some { ty := ("images"), pid := ("abc123"), progress := 50,
                fmt := .explicitText ("in 10 seconds"), endChar := '\r' }) ∧
    check_data_export_job_progress_step ("images") ("abc123")
      (.fields ("running") (some 100) (some 30)) =
      .stopRunning 100 30
        (some { ty := ("images"), pid := ("abc123"), progress := 100,
                fmt := .explicitText ("in 30 seconds"), endChar := '\n' }) := by
  constructor
  · exact ((C3_amended_poll_scheduling ("images") ("abc123") (some 50)
      (some 10)).1 (by decide)).trans (by decide)
  · exact ((C3_amended_poll_scheduling ("images") ("abc123") (some 100)
      (some 30)).2.1 (by decide)).trans (by decide)

/-- C6 counterexample: a running-status response reporting progress 150 and
timeRemaining -3 is used as-is — the running branch works with 150 (outside
[0, 100]) and -3 (below 0); nothing is clamped. -/
theorem C6_counterexample :
    check_data_export_job_progress_step ("images") ("abc123")
      (.fields ("running") (some 150) (some (-3))) =
      .stopRunning 150 (-3) none ∧
    usedProgress? (check_data_export_job_progress_step ("images") ("abc123")
      (.fields ("running") (some 150) (some (-3)))) = some 150 ∧
    ¬ ((150 : Int) ≤ 100) ∧
    usedTime? (check_data_export_job_progress_step ("images") ("abc123")
      (.fields ("running") (some 150) (some (-3)))) = some (-3) ∧
    ((-3 : Int) < 0) := by
  decide

/-- C6 (amended): on a running-status response the code does not clamp:
progress and timeRemaining are passed through the truthiness coercion only —
a present number is used unchanged (even above 100 or negative) and an
absent/null value becomes 0. -/
theorem C6_amended_no_clamping (ty pid : String) (p t : Int) :
    usedProgress? (check_data_export_job_progress_step ty pid
      (.fields ("running") (some p) (some t))) = some p ∧
    usedTime? (check_data_export_job_progress_step ty pid
      (.fields ("running") (some p) (some t))) = some t ∧
    usedProgress? (check_data_export_job_progress_step ty pid
      (.fields ("running") none none)) = some 0 ∧
    usedTime? (check_data_export_job_progress_step ty pid
      (.fields ("running") none none)) = some 0 := by
  refine ⟨?_, ?_, ?_, ?_⟩
  · by_cases h : p < 100 <;>
      simp [check_data_export_job_progress_step, usedProgress?, coerceFalsy_some, h]
  · by_cases h : p < 100 <;>
      simp [check_data_export_job_progress_step, usedTime?, coerceFalsy_some, h]
  · simp [check_data_export_job_progress_step, usedProgress?, coerceFalsy]
  · simp [check_data_export_job_progress_step, usedTime?, coerceFalsy]

/-- C7: whenever the progress line is emitted (progress in (0, 100] and
timeRemaining > 0 on a running-status response), the remaining time is
rendered as the explicit in-N-seconds string when timeRemaining is at most 45
and as the arrow-humanized relative duration when it is above 45. -/
theorem C7_time_formatting (ty pid : String) (p t : Int)
    (hp0 : 0 < p) (hp1 : p ≤ 100) (ht : 0 < t) :
    displayOf (check_data_export_job_progress_step ty pid
      (.fields ("running") (some p) (some t))) =
      some { ty := ty, pid := pid, progress := p,
             fmt := if t ≤ 45 then
                 .explicitText ("in " ++ toString t ++ " seconds")
               else .humanized t,
             endChar := if p < 100 then '\r' else '\n' } := by
  have hcond : 0 < p ∧ p ≤ 100 ∧ 0 < t := ⟨hp0, hp1, ht⟩
  by_cases h100 : p < 100 <;> by_cases h45 : t ≤ 45 <;>
    simp [check_data_export_job_progress_step, displayOf, displayFor,
      formatTimeRemaining, coerceFalsy_some, hcond, h100, h45, not_lt.mpr,
      not_le.mp]

/-- C7 witness: the boundary — at timeRemaining 45 the explicit string, at 46
the humanized form. -/
theorem C7_witness :
    displayOf (check_data_export_job_progress_step ("images") ("abc123")
      (.fields ("running") (some 50) (some 45))) =
      some { ty := ("images"), pid := ("abc123"), progress := 50,
             fmt := .explicitText ("in 45 seconds"), endChar := '\r' } ∧
    displayOf (check_data_export_job_progress_step ("images") ("abc123")
      (.fields ("running") (some 50) (some 46))) =
      some { ty := ("images"), pid := ("abc123"), progress := 50,
             fmt := .humanized 46, endChar := '\r' } := by
  constructor
  · exact (C7_time_formatting ("images") ("abc123") 50 45 (by decide)
      (by decide) (by decide)).trans (by decide)
  · exact (C7_time_formatting ("images") ("abc123") 50 46 (by decide)
      (by decide) (by decide)).trans (by decide)

/-- C4 (code evaluation): a truthy fileKey starts the download thread; but a
done-acknowledgment body without a fileKey key does not reach the
error-acknowledgment path — the except clause evaluates
self._on_data_export_job_error(type, project_id), whose argument project_id
is an undefined name there, so NameError is raised and no error
acknowledgment is issued and no domain export error is raised; and a body
whose fileKey is present but falsy (null or empty) silently does nothing at
all. -/
theorem C4_code_evaluation :
    on_data_export_job_done_step (.fileKey (some ("imgs.zip"))) =
      .startDownload ("imgs.zip") ∧
    on_data_export_job_done_step .malformed = .raisesNameError ("project_id") ∧
    on_data_export_job_done_step (.fileKey none) = .noAction ∧
    on_data_export_job_done_step (.fileKey (some (""))) = .noAction := by
  decide

/-- C5: after the stream completes, a non-zero declared content-length that
differs from the byte count written raises IOError; a declared total of 0
(also when the header is absent, which defaults to 0) never triggers the
integrity failure, whatever was written. -/
theorem C5_download_integrity (ty path key : String) (total : Nat)
    (chunks : List Nat) :
    (total ≠ 0 → chunks.sum ≠ total →
      download_file ty path key (some total) chunks =
        .error (.ioError ("Error downloading file " ++ key ++ "."))) ∧
    (∃ r, download_file ty path key (some 0) chunks = .ok r) ∧
    (∃ r, download_file ty path key none chunks = .ok r) := by
  refine ⟨?_, ?_, ?_⟩
  · intro h1 h2
    simp [download_file, h1, h2]
  · unfold download_file
    simp only [Option.getD_some, ne_eq, not_true_eq_false, false_and, if_false]
    split <;> try exact ⟨_, rfl⟩
    split <;> exact ⟨_, rfl⟩
  · unfold download_file
    simp only [Option.getD_none, ne_eq, not_true_eq_false, false_and, if_false]
    split <;> try exact ⟨_, rfl⟩
    split <;> exact ⟨_, rfl⟩

/-- C5 witness: a declared total of 1000 with only 900 bytes written fails
with the IOError; a declared total of 0 with the same 900 bytes succeeds. -/
theorem C5_witness :
    download_file ("images") ("/dest") ("file.zip") (some 1000) [900] =
      .error (.ioError ("Error downloading file file.zip.")) ∧
    (∃ r, download_file ("images") ("/dest") ("file.zip") (some 0) [900] =
      .ok r) := by
  constructor
  · exact ((C5_download_integrity ("images") ("/dest") ("file.zip") 1000
      [900]).1 (by decide) (by decide)).trans (by decide)
  · exact (C5_download_integrity ("images") ("/dest") ("file.zip") 1000
      [900]).2.1

/-- C8 (code evaluation): the first three constructor validations raise
ValueError as claimed, synchronously and before any network activity; but a
destination path that does not exist raises AttributeError, not OSError — the
OSError message is built with the non-existent string method foramt (a typo
for format), and that attribute lookup fails before the OSError exists. -/
theorem C8_code_evaluation :
    managerInit ("videos") (some ("public.md.ai")) (some ("abc123")) ("/data")
      true = .error (.valueError ("type must be images or annotations.")) ∧
    managerInit ("images") none (some ("abc123")) ("/data") true =
      .error (.valueError ("domain is not specified.")) ∧
    managerInit ("images") (some ("public.md.ai")) none ("/data") true =
      .error (.valueError ("project_id is not specified.")) ∧
    managerInit ("images") (some ("public.md.ai")) (some ("abc123")) ("/nope")
      false = .error (.attributeError ("foramt")) ∧
    (∀ msg, managerInit ("images") (some ("public.md.ai")) (some ("abc123"))
      ("/nope") false ≠ .error (.osError msg)) := by
  refine ⟨by decide, by decide, by decide, by decide, ?_⟩
  intro msg heq
  rw [show managerInit ("images") (some ("public.md.ai")) (some ("abc123"))
    ("/nope") false = .error (.attributeError ("foramt")) from by decide] at heq
  simp at heq

/-- C9: with the integrity check passing, the images kind extracts the zip
archive into the destination directory and reports the downloaded file path
with its extension split off as data_path, while the annotations kind reports
the downloaded file path itself and extracts nothing. -/
theorem C9_data_path (path key : String) (cl : Option Nat) (chunks : List Nat)
    (h : ¬ (cl.getD 0 ≠ 0 ∧ chunks.sum ≠ cl.getD 0)) :
    download_file ("images") path key cl chunks =
      .ok { dataPath := some (splitextRoot (osPathJoin path key)),
            extractedInto := some path } ∧
    download_file ("annotations") path key cl chunks =
      .ok { dataPath := some (osPathJoin path key), extractedInto := none } := by
  constructor <;> simp [download_file, h]

/-- C9 witness: imgs.zip for images yields the extensionless /dest/imgs with
extraction into /dest; annos.json for annotations stays /dest/annos.json in
place. -/
theorem C9_witness :
    download_file ("images") ("/dest") ("imgs.zip") (some 0) [] =
      .ok { dataPath := some ("/dest/imgs"), extractedInto := some ("/dest") } ∧
    download_file ("annotations") ("/dest") ("annos.json") (some 0) [] =
      .ok { dataPath := some ("/dest/annos.json"), extractedInto := none } := by
  constructor
  · exact ((C9_data_path ("/dest") ("imgs.zip") (some 0) [])
      (by decide)).1.trans (by decide)
  · exact ((C9_data_path ("/dest") ("annos.json") (some 0) [])
      (by decide)).2.trans (by decide)

/-- C10 counterexample: when the error-acknowledgment POST itself raises a
ConnectionError, that exception propagates — it is not ignored — and the
domain export error naming the kind and project is never raised. -/
theorem C10_counterexample :
    on_data_export_job_error ("images") ("abc123") permafailConn =
      .requestsConnectionError ∧
    on_data_export_job_error ("images") ("abc123") permafailConn ≠
      .exceptionErr ("Error exporting images for project abc123.") := by
  decide

/-- C10 (amended): the error-acknowledgment call is best-effort only with
respect to its response — the response is never inspected, so any HTTP status
is tolerated and the manager then raises the domain error naming the export
kind and project; but an exception raised by the acknowledgment call itself
propagates in place of the domain error. -/
theorem C10_amended_error_ack (ty pid : String) :
    (∀ code : Nat, on_data_export_job_error ty pid (fun _ => .ok code) =
      .exceptionErr ("Error exporting " ++ ty ++ " for project " ++ pid ++
        ".")) ∧
    (∀ (e : PyError) (post : Nat → Except PyError Nat), post 1 = .error e →
      on_data_export_job_error ty pid post = e) := by
  constructor
  · intro code
    simp [on_data_export_job_error]
  · intro e post h
    simp [on_data_export_job_error, h]

/-- C10 witness: the amended theorem at an ignored HTTP 500 response and at
an acknowledgment call raising ConnectionError. -/
theorem C10_amended_witness :
    on_data_export_job_error ("images") ("abc123") (fun _ => .ok 500) =
      .exceptionErr ("Error exporting images for project abc123.") ∧
    on_data_export_job_error ("annotations") ("abc123") permafailConn =
      .requestsConnectionError := by
  constructor
  · exact ((C10_amended_error_ack ("images") ("abc123")).1 500).trans
      (by decide)
  · exact (C10_amended_error_ack ("annotations") ("abc123")).2
      .requestsConnectionError permafailConn rfl

end Mdai
